import Mathlib

/-!
Verification of the Financial Analytics Engine of
`analise_financeira_app.py` (valuation, Fleuriet health model,
Black-Scholes option pricing and technical signal scoring).

The Python source works on pandas Series/DataFrames of float64 values.
The embedding represents
* an annual account series as an association list `List (Int × ℚ)`
  from fiscal year to value, sorted by year when produced by the aligner;
* statement-table rows (`CvmRow`) with the fields the code reads:
  company id `CD_CVM`, account code `CD_CONTA`, fiscal-year-end date
  `DT_REFER` (split into calendar year and an ordinal day inside the year,
  compared lexicographically), exercise-order flag `ORDEM_EXERC` and
  value `VL_CONTA`;
* float arithmetic as exact rational arithmetic (the valuation, Fleuriet
  and scoring paths) or real arithmetic (the Black-Scholes path, which
  needs `exp`, `log` and the normal CDF).  Division by zero follows the
  Lean convention `x / 0 = 0`; where the distinction to IEEE `inf`/`nan`
  matters for a claim it is modelled explicitly (`PctVal` below) or noted
  at the definition;
* a fallible external lookup (a `yfinance` request that can raise) as an
  `Except Unit` value supplied as input;
* a Python `None`-able float field as `Option ℚ`.
-/

namespace FinApp

/-- One annual account series, as extracted from a statement table:
year (`DT_REFER.dt.year`) paired with `VL_CONTA`. -/
abbrev Series := List (Int × ℚ)

/-- One row of a CVM statement table, with the columns the code reads. -/
structure CvmRow where
  cdCvm : Int
  cdConta : String
  dtReferYear : Int
  dtReferDay : Nat
  ordemExerc : String
  vlConta : ℚ

/-- The row filter of `obter_historico_metrica`:
`(df['CD_CONTA'] == codigo) & (df['ORDEM_EXERC'] == 'ÚLTIMO')`. -/
def isUltimo (codigo : String) (r : CvmRow) : Bool :=
  r.cdConta == codigo && r.ordemExerc == "ÚLTIMO"

/-- Comparison of two rows by full fiscal-year-end date `DT_REFER`
(lexicographic on calendar year, then day inside the year). -/
def dtLe (a b : CvmRow) : Bool :=
  a.dtReferYear < b.dtReferYear ||
    (a.dtReferYear == b.dtReferYear && a.dtReferDay ≤ b.dtReferDay)

/-- The row kept for one calendar-year group: the one with the latest
`DT_REFER` (`sort_values('DT_REFER').groupby(year).last()`); on equal
dates the later row of the table wins. -/
def latestRow (rows : List CvmRow) : Option CvmRow :=
  rows.foldl
    (fun acc r =>
      match acc with
      | none => some r
      | some b => if dtLe b r then some r else some b)
    none

/-- Insert a year into a strictly sorted list of years (no duplicates). -/
def insertYear (y : Int) : List Int → List Int
  | [] => [y]
  | x :: xs =>
    if y < x then y :: x :: xs
    else if y = x then x :: xs
    else x :: insertYear y xs

/-- The sorted set of calendar years appearing in a list of rows
(the group keys of `groupby(DT_REFER.dt.year)`, which pandas sorts). -/
def yearsOf (rows : List CvmRow) : List Int :=
  rows.foldl (fun acc r => insertYear r.dtReferYear acc) []

/-- `obter_historico_metrica`: filter the table to the target account code
and to rows flagged `'ÚLTIMO'`; if nothing matches return an empty series;
otherwise group by calendar year of `DT_REFER`, keep the row with the
latest date in each year, and emit `VL_CONTA` indexed by year ascending. -/
def obter_historico_metrica (df : List CvmRow) (codigo : String) : Series :=
  let metric := df.filter (isUltimo codigo)
  if metric.isEmpty then []
  else
    (yearsOf metric).filterMap fun y =>
      (latestRow (metric.filter fun r => r.dtReferYear == y)).map
        fun r => (y, r.vlConta)

/-! ### Series operations used by the valuation and Fleuriet code -/

/-- `s.add(t, fill_value=0)` / `s.subtract(t, fill_value=0)` and friends:
merge two year-sorted series on the union of their years, filling a
missing side with 0. -/
def mergeWith (f : ℚ → ℚ → ℚ) : Series → Series → Series
  | [], [] => []
  | [], q :: t => (q.1, f 0 q.2) :: mergeWith f [] t
  | p :: s, [] => (p.1, f p.2 0) :: mergeWith f s []
  | p :: s, q :: t =>
    if p.1 < q.1 then (p.1, f p.2 0) :: mergeWith f s (q :: t)
    else if q.1 < p.1 then (q.1, f 0 q.2) :: mergeWith f (p :: s) t
    else (p.1, f p.2 q.2) :: mergeWith f s t
  termination_by s t => s.length + t.length

/-- `s.add(t, fill_value=0)`. -/
def seriesAdd (s t : Series) : Series := mergeWith (· + ·) s t

/-- `s.subtract(t, fill_value=0)`. -/
def seriesSub (s t : Series) : Series := mergeWith (· - ·) s t

/-- Element-wise map over the values (scalar arithmetic on a Series). -/
def seriesMapVal (f : ℚ → ℚ) (s : Series) : Series :=
  s.map fun p => (p.1, f p.2)

/-- Element-wise combination of two columns of the same (inner-joined)
DataFrame: both operands share the same year index. -/
def seriesZip (f : ℚ → ℚ → ℚ) (s t : Series) : Series :=
  List.zipWith (fun p q => (p.1, f p.2 q.2)) s t

/-- `s.sum()` (pandas sums an empty series to 0). -/
def seriesSum (s : Series) : ℚ := (s.map Prod.snd).sum

/-- `s.mean()`.  Only applied to series the code has checked nonempty
(pandas would yield `NaN` on an empty series). -/
def seriesMean (s : Series) : ℚ := seriesSum s / (s.length : ℚ)

/-- `s.iloc[-1]` with a default for the empty case.  Only applied with
the default where the code has already guarded the series nonempty
(pandas raises `IndexError` on an empty series). -/
def lastD (s : Series) (d : ℚ) : ℚ := ((s.getLast?).map Prod.snd).getD d

/-- `s.iloc[0]` with a default, same proviso as `lastD`. -/
def firstD (s : Series) (d : ℚ) : ℚ := ((s.head?).map Prod.snd).getD d

/-- `s.index[-1]` with a default, same proviso as `lastD`. -/
def lastYearD (s : Series) (d : Int) : Int :=
  ((s.getLast?).map Prod.fst).getD d

/-- `s.iloc[-1]` as a fallible operation: pandas raises `IndexError`
on an empty series. -/
def lastE (s : Series) : Except Unit ℚ :=
  match s.getLast? with
  | some p => Except.ok p.2
  | none => Except.error ()

/-- `s.tail(n)`. -/
def seriesTail (n : Nat) (s : Series) : Series := s.drop (s.length - n)

/-- The sorted year index shared by all columns after
`pd.concat([...], axis=1).dropna()` (an inner join on years): the years
of the first series that appear in every other series. -/
def commonYears (ss : List Series) : List Int :=
  match ss with
  | [] => []
  | s :: rest =>
    (s.map Prod.fst).filter fun y => rest.all fun t => t.any fun p => p.1 == y

/-- Value of a series at a year, if present. -/
def lookupYear (s : Series) (y : Int) : Option ℚ :=
  (s.find? fun p => p.1 == y).map Prod.snd

/-- One column of the inner-joined DataFrame: the series restricted to
the shared year index. -/
def restrict (s : Series) (ys : List Int) : Series :=
  ys.filterMap fun y => (lookupYear s y).map fun v => (y, v)

end FinApp

namespace FinApp

/-! ### Valuation Engine (`processar_valuation_empresa` and helpers)

`calcular_beta` downloads asset prices and regresses them on the
benchmark; its numeric output (the raw levered beta) enters the embedding
as the input field `betaMercado`.  The `yf.Ticker(...).info` request,
which the code wraps in `try/except`, enters as an `Except Unit YfInfo`
input.  Dictionary fields that Python may hold as `None` are `Option`s. -/

/-- The `yfinance` `info` dictionary fields the code reads. -/
structure YfInfo where
  marketCap : Option ℚ
  currentPrice : Option ℚ
  previousClose : Option ℚ
  longName : Option String
  sharesOutstanding : Option ℚ

/-- Python truthiness of a possibly-missing float (`None` and `0` are
falsy), as tested by `all([...])`. -/
def pyTruthy (x : Option ℚ) : Bool :=
  match x with
  | none => false
  | some v => v != 0

/-- Python truthiness of a possibly-missing string. -/
def pyTruthyStr (x : Option String) : Bool :=
  match x with
  | none => false
  | some s => s != ""

/-- `info.get('currentPrice', info.get('previousClose'))`. -/
def precoAtualOf (info : YfInfo) : Option ℚ :=
  match info.currentPrice with
  | some v => some v
  | none => info.previousClose

/-- The market snapshot (`market_data` tuple) fields the valuation uses. -/
structure MarketData where
  riskFreeRate : ℚ
  premioRiscoMercado : ℚ

/-- The `params` dictionary of the valuation. -/
structure ValuationParams where
  taxaCrescimentoPerpetuidade : ℚ
  mediaAnosCalculo : Nat

/-- Everything `processar_valuation_empresa` consumes: the four statement
tables, the company id, the external market lookups and the parameters. -/
structure ValuationInput where
  ticker : String
  dre : List CvmRow
  bpa : List CvmRow
  bpp : List CvmRow
  dfc : List CvmRow
  codigoCvm : Int
  infoRes : Except Unit YfInfo
  betaMercado : ℚ
  market : MarketData
  params : ValuationParams

/-- `dre[dre['CD_CVM'] == codigo_cvm]`. -/
def empresaDre (inp : ValuationInput) : List CvmRow :=
  inp.dre.filter fun r => r.cdCvm == inp.codigoCvm

/-- `bpa[bpa['CD_CVM'] == codigo_cvm]`. -/
def empresaBpa (inp : ValuationInput) : List CvmRow :=
  inp.bpa.filter fun r => r.cdCvm == inp.codigoCvm

/-- `bpp[bpp['CD_CVM'] == codigo_cvm]`. -/
def empresaBpp (inp : ValuationInput) : List CvmRow :=
  inp.bpp.filter fun r => r.cdCvm == inp.codigoCvm

/-- `dfc[dfc['CD_CVM'] == codigo_cvm]`. -/
def empresaDfc (inp : ValuationInput) : List CvmRow :=
  inp.dfc.filter fun r => r.cdCvm == inp.codigoCvm

/-- EBIT history, account `3.05`. -/
def histEbit (inp : ValuationInput) : Series :=
  obter_historico_metrica (empresaDre inp) "3.05"

/-- Income-tax history, account `3.10`. -/
def histImpostos (inp : ValuationInput) : Series :=
  obter_historico_metrica (empresaDre inp) "3.10"

/-- Pre-tax income history, account `3.09`. -/
def histLai (inp : ValuationInput) : Series :=
  obter_historico_metrica (empresaDre inp) "3.09"

/-- Net revenue history, account `3.01`. -/
def histRecLiquida (inp : ValuationInput) : Series :=
  obter_historico_metrica (empresaDre inp) "3.01"

/-- Net income history, account `3.11`. -/
def histLucroLiquido (inp : ValuationInput) : Series :=
  obter_historico_metrica (empresaDre inp) "3.11"

/-- Receivables history, account `1.01.03`. -/
def histContasAReceber (inp : ValuationInput) : Series :=
  obter_historico_metrica (empresaBpa inp) "1.01.03"

/-- Inventory history, account `1.01.04`. -/
def histEstoques (inp : ValuationInput) : Series :=
  obter_historico_metrica (empresaBpa inp) "1.01.04"

/-- Payables history, account `2.01.02`. -/
def histFornecedores (inp : ValuationInput) : Series :=
  obter_historico_metrica (empresaBpp inp) "2.01.02"

/-- Fixed-assets history, account `1.02.01`. -/
def histAtivoImobilizado (inp : ValuationInput) : Series :=
  obter_historico_metrica (empresaBpa inp) "1.02.01"

/-- Intangible-assets history, account `1.02.03`. -/
def histAtivoIntangivel (inp : ValuationInput) : Series :=
  obter_historico_metrica (empresaBpa inp) "1.02.03"

/-- Short-term debt history, account `2.01.04`. -/
def histDividaCp (inp : ValuationInput) : Series :=
  obter_historico_metrica (empresaBpp inp) "2.01.04"

/-- Long-term debt history, account `2.02.01`. -/
def histDividaLp (inp : ValuationInput) : Series :=
  obter_historico_metrica (empresaBpp inp) "2.02.01"

/-- Financial-expense history, account `3.07`, taken in absolute value:
`abs(obter_historico_metrica(empresa_dre, C['DESPESAS_FINANCEIRAS']))`. -/
def histDespFinanceira (inp : ValuationInput) : Series :=
  seriesMapVal abs (obter_historico_metrica (empresaDre inp) "3.07")

/-- Equity history, account `2.03`. -/
def histPlTotal (inp : ValuationInput) : Series :=
  obter_historico_metrica (empresaBpp inp) "2.03"

/-- Depreciation and amortization history, account `6.01`. -/
def histDepAmort (inp : ValuationInput) : Series :=
  obter_historico_metrica (empresaDfc inp) "6.01"

/-- Effective tax rate:
`abs(hist_impostos.sum()) / abs(hist_lai.sum()) if hist_lai.sum() != 0 else 0`. -/
def aliquotaEfetiva (inp : ValuationInput) : ℚ :=
  if seriesSum (histLai inp) ≠ 0 then
    |seriesSum (histImpostos inp)| / |seriesSum (histLai inp)|
  else 0

/-- `hist_nopat = hist_ebit * (1 - aliquota_efetiva)`. -/
def histNopat (inp : ValuationInput) : Series :=
  seriesMapVal (fun v => v * (1 - aliquotaEfetiva inp)) (histEbit inp)

/-- `hist_fco = hist_nopat.add(hist_dep_amort, fill_value=0)`. -/
def histFco (inp : ValuationInput) : Series :=
  seriesAdd (histNopat inp) (histDepAmort inp)

/-- `hist_ncg = receber.add(estoques, fill_value=0).subtract(fornecedores, fill_value=0)`. -/
def histNcg (inp : ValuationInput) : Series :=
  seriesSub (seriesAdd (histContasAReceber inp) (histEstoques inp)) (histFornecedores inp)

/-- `hist_capital_empregado = hist_ncg.add(imobilizado, 0).add(intangivel, 0)`. -/
def histCapitalEmpregado (inp : ValuationInput) : Series :=
  seriesAdd (seriesAdd (histNcg inp) (histAtivoImobilizado inp)) (histAtivoIntangivel inp)

/-- The year index of `df_series = pd.concat([...], axis=1).dropna()`:
the years common to all fourteen component series, in the code's column
order. -/
def anosComuns (inp : ValuationInput) : List Int :=
  commonYears
    [histNopat inp, histFco inp, histCapitalEmpregado inp, histDividaCp inp,
     histDividaLp inp, histDespFinanceira inp, histPlTotal inp,
     histRecLiquida inp, histLucroLiquido inp, histContasAReceber inp,
     histEstoques inp, histFornecedores inp, histEbit inp, histDepAmort inp]

/-- `df_series['NOPAT']`. -/
def colNopat (inp : ValuationInput) : Series := restrict (histNopat inp) (anosComuns inp)

/-- `df_series['Capital Empregado']`. -/
def colCapital (inp : ValuationInput) : Series :=
  restrict (histCapitalEmpregado inp) (anosComuns inp)

/-- `df_series['Divida CP']`. -/
def colDividaCp (inp : ValuationInput) : Series := restrict (histDividaCp inp) (anosComuns inp)

/-- `df_series['Divida LP']`. -/
def colDividaLp (inp : ValuationInput) : Series := restrict (histDividaLp inp) (anosComuns inp)

/-- `df_series['Despesas Financeiras']`. -/
def colDesp (inp : ValuationInput) : Series :=
  restrict (histDespFinanceira inp) (anosComuns inp)

/-- `df_series['PL']`. -/
def colPl (inp : ValuationInput) : Series := restrict (histPlTotal inp) (anosComuns inp)

/-- `df_series['Receita Liquida']`. -/
def colRec (inp : ValuationInput) : Series := restrict (histRecLiquida inp) (anosComuns inp)

/-- `df_series['Lucro Liquido']`. -/
def colLl (inp : ValuationInput) : Series := restrict (histLucroLiquido inp) (anosComuns inp)

/-- `df_series['Contas a Receber']`. -/
def colCar (inp : ValuationInput) : Series :=
  restrict (histContasAReceber inp) (anosComuns inp)

/-- `df_series['Estoques']`. -/
def colEst (inp : ValuationInput) : Series := restrict (histEstoques inp) (anosComuns inp)

/-- `df_series['Fornecedores']`. -/
def colForn (inp : ValuationInput) : Series := restrict (histFornecedores inp) (anosComuns inp)

/-- `df_series['EBIT']`. -/
def colEbit (inp : ValuationInput) : Series := restrict (histEbit inp) (anosComuns inp)

/-- `df_series['Dep_Amort']`. -/
def colDep (inp : ValuationInput) : Series := restrict (histDepAmort inp) (anosComuns inp)

/-- `hist_divida_total = df_series['Divida CP'] + df_series['Divida LP']`. -/
def histDividaTotal (inp : ValuationInput) : Series :=
  seriesZip (· + ·) (colDividaCp inp) (colDividaLp inp)

/-- `hist_roic = df_series['NOPAT'] / df_series['Capital Empregado']`.
A zero capital employed divides by zero (junk 0 here, non-finite float in
the source). -/
def histRoic (inp : ValuationInput) : Series :=
  seriesZip (· / ·) (colNopat inp) (colCapital inp)

/-- `divida_total_ultimo_ano = hist_divida_total.iloc[-1]` (the code only
reaches this after checking `df_series` nonempty). -/
def dividaUltimo (inp : ValuationInput) : ℚ := lastD (histDividaTotal inp) 0

/-- `calcular_beta_hamada`: unlever the market-observed levered beta by
`1 + (1 - imposto) * divida/market_cap`, then relever by the same factor;
guard cases (zero enterprise value or zero market capitalization) return
the market beta unchanged.  The raw beta produced by `calcular_beta` from
downloaded price history is the first argument.  When the unlevering
denominator is zero the code divides by zero (a non-finite float; junk 0
in this exact embedding — either way not the input beta). -/
def calcular_beta_hamada (betaAlavancadoMercado imposto dividaTotal marketCap : ℚ) : ℚ :=
  if marketCap + dividaTotal = 0 ∨ marketCap = 0 then betaAlavancadoMercado
  else
    let dividaPatrimonio := dividaTotal / marketCap
    let betaDesalavancado := betaAlavancadoMercado / (1 + (1 - imposto) * dividaPatrimonio)
    let betaRealavancado := betaDesalavancado * (1 + (1 - imposto) * dividaPatrimonio)
    betaRealavancado

/-- The Hamada beta of the valuation run. -/
def betaHamadaOf (inp : ValuationInput) (info : YfInfo) : ℚ :=
  calcular_beta_hamada inp.betaMercado (aliquotaEfetiva inp) (dividaUltimo inp)
    (info.marketCap.getD 0)

/-- `ke = risk_free_rate + beta_hamada * premio_risco_mercado`. -/
def keOf (inp : ValuationInput) (info : YfInfo) : ℚ :=
  inp.market.riskFreeRate + betaHamadaOf inp info * inp.market.premioRiscoMercado

/-- `ev_mercado = market_cap + divida_total_ultimo_ano`. -/
def evOf (inp : ValuationInput) (info : YfInfo) : ℚ :=
  info.marketCap.getD 0 + dividaUltimo inp

/-- `wacc_medio`, exactly as computed on line 1023: the market-weighted
average of `ke` and the after-tax cost of debt when `ev > 0` and
`divida > 0`, otherwise `ke`. -/
def waccOf (inp : ValuationInput) (info : YfInfo) : ℚ :=
  if 0 < evOf inp info ∧ 0 < dividaUltimo inp then
    (info.marketCap.getD 0 / evOf inp info) * keOf inp info +
      (dividaUltimo inp / evOf inp info) *
        (seriesMean (colDesp inp) / dividaUltimo inp) * (1 - aliquotaEfetiva inp)
  else keOf inp info

/-- `pct_change().iloc[-1]` in exact arithmetic: `last/prev - 1`.  Only
used where the code guards the length; a zero `prev` is junk 0 here
(non-finite float in the source). -/
def pctChangeLastQ (s : Series) : ℚ :=
  match s.reverse with
  | b :: a :: _ => b.2 / a.2 - 1
  | _ => 0

/-- The result record of `processar_valuation_empresa` (the per-company
dictionary), field values that the code can set to `np.nan` as `Option ℚ`
with `none` for `NaN`. -/
structure ValuationResult where
  empresa : String
  tickerOut : String
  precoAtual : ℚ
  precoJusto : ℚ
  margemSeguranca : ℚ
  marketCap : ℚ
  capitalEmpregado : ℚ
  dividaTotal : ℚ
  nopatMedio : ℚ
  roicPct : ℚ
  beta : ℚ
  waccPct : ℚ
  spreadPct : ℚ
  eva : ℚ
  efv : ℚ
  crescimentoVendasPct : ℚ
  margemLucroPct : ℚ
  dividaPatrimonio : Option ℚ
  prazoCobranca : Option ℚ
  prazoPagamento : Option ℚ
  giroEstoques : Option ℚ
  ke : ℚ
  kd : ℚ
  histNopatS : Series
  histFcoS : Series
  histRoicPct : Series
  waccSeriesPct : Series
  histRiquezaFuturaPct : Series
  histRiquezaAtualPct : Series
  histEfvPct : Series
  histEvaPct : Series

/-- The `resultados` dictionary built on lines 1044-1077, given that all
guards have passed. -/
def buildResult (inp : ValuationInput) (info : YfInfo) : ValuationResult :=
  let market_cap := info.marketCap.getD 0
  let preco_atual := (precoAtualOf info).getD 0
  let n_acoes := info.sharesOutstanding.getD 0
  let divida := dividaUltimo inp
  let wacc := waccOf inp info
  let capUltimo := lastD (colCapital inp) 0
  let riquezaFutura := market_cap + divida - capUltimo
  let histWacc : Series := (anosComuns inp).map fun y => (y, wacc)
  let histEva := seriesZip (· * ·) (seriesZip (· - ·) (histRoic inp) histWacc) (colCapital inp)
  let histRiquezaAtual := seriesMapVal (· / wacc) histEva
  let histRfPct := seriesMapVal (fun c => (riquezaFutura / c - 1) * 100) (colCapital inp)
  let histRaPct := seriesZip (fun ra c => ra / c * 100) histRiquezaAtual (colCapital inp)
  let prazoPagDen :=
    lastD (colEbit inp) 0 + lastD (colDep inp) 0 - lastD (colLl inp) 0
  { empresa := info.longName.getD ""
    tickerOut := inp.ticker.replace ".SA" ""
    precoAtual := preco_atual
    precoJusto :=
      if 0 < n_acoes then (riquezaFutura + capUltimo - divida) / n_acoes else 0
    margemSeguranca :=
      if 0 < n_acoes ∧ 0 < preco_atual then
        ((riquezaFutura + capUltimo - divida) / n_acoes / preco_atual - 1) * 100
      else -100
    marketCap := market_cap
    capitalEmpregado := capUltimo
    dividaTotal := divida
    nopatMedio := seriesMean (seriesTail inp.params.mediaAnosCalculo (colNopat inp))
    roicPct := lastD (histRoic inp) 0 * 100
    beta := betaHamadaOf inp info
    waccPct := wacc * 100
    spreadPct := (lastD (histRoic inp) 0 - lastD histWacc 0) * 100
    eva := lastD histEva 0
    efv := riquezaFutura - lastD histRiquezaAtual 0
    crescimentoVendasPct :=
      if 1 < (colRec inp).length then pctChangeLastQ (colRec inp) * 100 else 0
    margemLucroPct :=
      if lastD (colRec inp) 0 ≠ 0 then
        lastD (colLl inp) 0 / lastD (colRec inp) 0 * 100
      else 0
    dividaPatrimonio :=
      if 0 < lastD (colPl inp) 0 then some (divida / lastD (colPl inp) 0) else none
    prazoCobranca :=
      if lastD (colRec inp) 0 ≠ 0 then
        some (lastD (colCar inp) 0 / lastD (colRec inp) 0 * 365)
      else none
    prazoPagamento :=
      if prazoPagDen ≠ 0 then some (lastD (colForn inp) 0 / prazoPagDen * 365) else none
    giroEstoques :=
      if lastD (colEst inp) 0 ≠ 0 then
        some (lastD (colRec inp) 0 / lastD (colEst inp) 0)
      else none
    ke := keOf inp info
    kd := if 0 < divida then seriesMean (colDesp inp) / divida else 0
    histNopatS := histNopat inp
    histFcoS := histFco inp
    histRoicPct := seriesMapVal (· * 100) (histRoic inp)
    waccSeriesPct := seriesMapVal (· * 100) histWacc
    histRiquezaFuturaPct := histRfPct
    histRiquezaAtualPct := histRaPct
    histEfvPct := seriesZip (· - ·) histRfPct histRaPct
    histEvaPct := seriesZip (fun e c => e / c * 100) histEva (colCapital inp) }

/-- `processar_valuation_empresa`: the guard chain of the source in order
(CVM data present; the `yfinance` fetch succeeded; market fields truthy;
tax-rate data sufficient; joined series nonempty; WACC above the
perpetuity growth rate), then the result record.  `pd.isna(wacc_medio)`
cannot fire in exact rational arithmetic, where no NaN exists. -/
def processar_valuation_empresa (inp : ValuationInput) : Except String ValuationResult :=
  if (empresaDre inp).isEmpty || (empresaBpa inp).isEmpty ||
      (empresaBpp inp).isEmpty || (empresaDfc inp).isEmpty then
    Except.error "Dados CVM históricos incompletos ou inexistentes."
  else
    match inp.infoRes with
    | Except.error _ => Except.error "Falha ao buscar dados no Yahoo Finance."
    | Except.ok info =>
      if ¬(pyTruthy info.marketCap ∧ pyTruthy (precoAtualOf info) ∧
            pyTruthy info.sharesOutstanding ∧ pyTruthyStr info.longName) then
        Except.error "Dados de mercado (YFinance) incompletos."
      else if seriesSum (histLai inp) = 0 ∨ (histEbit inp).isEmpty then
        Except.error "Dados de Lucro/EBIT insuficientes para calcular a alíquota de imposto."
      else if (anosComuns inp).isEmpty then
        Except.error "Séries históricas incompletas para os cálculos anuais."
      else if waccOf inp info ≤ inp.params.taxaCrescimentoPerpetuidade then
        Except.error "WACC inválido ou menor/igual à taxa de crescimento na perpetuidade. Ajuste os parâmetros."
      else
        Except.ok (buildResult inp info)

/-- The reported margin of safety of a valuation outcome, when a result
was produced. -/
def margemOf (res : Except String ValuationResult) : Option ℚ :=
  res.toOption.map (·.margemSeguranca)

/-- The reported fair price of a valuation outcome, when a result was
produced. -/
def precoJustoOf (res : Except String ValuationResult) : Option ℚ :=
  res.toOption.map (·.precoJusto)

end FinApp

namespace FinApp

/-! ### Capital-Structure Health Model (`processar_analise_fleuriet`)

The growth-rate comparison of the scissors-effect test runs on float
values that can be `inf`, `-inf` or `NaN` (a zero previous value in
`pct_change`), so the latest-entry growth rate is modelled with an
explicit IEEE-style value type. -/

/-- An IEEE-style value of `pct_change(...).iloc[-1]`: finite, infinite
(previous value 0, current nonzero) or NaN (0/0, or a series too short
to have a previous entry). -/
inductive PctVal
  | fin (q : ℚ)
  | pinf
  | ninf
  | nan
deriving DecidableEq

/-- `pd.notna` on a growth value. -/
def pctNotna : PctVal → Bool
  | PctVal.nan => false
  | _ => true

/-- IEEE `>` on growth values: any comparison with NaN is false. -/
def pctGt : PctVal → PctVal → Bool
  | PctVal.nan, _ => false
  | _, PctVal.nan => false
  | PctVal.fin a, PctVal.fin b => b < a
  | PctVal.fin _, PctVal.pinf => false
  | PctVal.fin _, PctVal.ninf => true
  | PctVal.pinf, PctVal.pinf => false
  | PctVal.pinf, _ => true
  | PctVal.ninf, _ => false

/-- `s.pct_change().iloc[-1]` with float semantics: `last/prev - 1` when
the previous value is nonzero, `±inf` when it is zero and the last value
is nonzero, NaN for `0/0` or when the series has fewer than two entries
(the first `pct_change` entry is NaN; the empty series is only reached
behind the code's length guard). -/
def pctChangeLast (s : Series) : PctVal :=
  match s.reverse with
  | b :: a :: _ =>
    if a.2 ≠ 0 then PctVal.fin (b.2 / a.2 - 1)
    else if 0 < b.2 then PctVal.pinf
    else if b.2 < 0 then PctVal.ninf
    else PctVal.nan
  | _ => PctVal.nan

/-- The scissors-effect flag, lines 1338-1343: both series longer than
one entry, both latest growth rates defined (`pd.notna`), NCG growing
faster than CDG, and a negative latest treasury balance. -/
def efeitoTesouraCalc (ncg cdg t : Series) : Bool :=
  if 1 < ncg.length ∧ 1 < cdg.length then
    let crescNcg := pctChangeLast ncg
    let crescCdg := pctChangeLast cdg
    if pctNotna crescNcg = true ∧ pctNotna crescCdg = true ∧
        pctGt crescNcg crescCdg = true ∧ lastD t 0 < 0 then
      true
    else false
  else false

/-- A Python exception escaping `processar_analise_fleuriet`. -/
inductive PyError
  | nameError
deriving DecidableEq

/-- Everything `processar_analise_fleuriet` consumes: the ticker, the
three statement tables, the company id and the outcome of the
`yf.Ticker(ticker_sa).info` request inside the `try` block (`Except.error`
models that request raising). -/
structure FleurietInput where
  ticker : String
  bpa : List CvmRow
  bpp : List CvmRow
  dre : List CvmRow
  codigoCvm : Int
  infoRes : Except Unit YfInfo

/-- The per-company Fleuriet result row; `zScore = none` is the
`None`/undefined Z-score. -/
structure FleurietResult where
  tickerOut : String
  empresa : String
  ano : Int
  ncg : ℚ
  cdg : ℚ
  tesouraria : ℚ
  efeitoTesoura : Bool
  zScore : Option ℚ
  classificacaoRisco : String

/-- `reclassificar_contas_fleuriet`: ACO = inventory + receivables,
PCO = payables, AP = non-current assets, PL = equity, PNC = non-current
liabilities. -/
def reclassificarContas (bpa bpp : List CvmRow) : Series × Series × Series × Series × Series :=
  (seriesAdd (obter_historico_metrica bpa "1.01.04") (obter_historico_metrica bpa "1.01.03"),
   obter_historico_metrica bpp "2.01.02",
   obter_historico_metrica bpa "1.02",
   obter_historico_metrica bpp "2.03",
   obter_historico_metrica bpp "2.02")

/-- `processar_analise_fleuriet`.  The empty-table and empty-series
guards return `None` (`Except.ok none`).  The `try` block computes the
Z-score inputs; any exception there (the `yfinance` request, or
`iloc[-1]` on an empty total-assets / total-liabilities / EBIT / revenue
series) is caught and yields `z_score = None`, class `"Erro no cálculo"`.
But `info` is bound *inside* the `try`: when the `yfinance` request
itself raises, the final result line `info.get('longName', ticker_sa)`
raises `NameError`, modelled as `Except.error PyError.nameError`. -/
def processar_analise_fleuriet (inp : FleurietInput) : Except PyError (Option FleurietResult) :=
  let empresaBpaF := inp.bpa.filter fun r => r.cdCvm == inp.codigoCvm
  let empresaBppF := inp.bpp.filter fun r => r.cdCvm == inp.codigoCvm
  let empresaDreF := inp.dre.filter fun r => r.cdCvm == inp.codigoCvm
  if empresaBpaF.isEmpty || empresaBppF.isEmpty || empresaDreF.isEmpty then
    Except.ok none
  else
    let contas := reclassificarContas empresaBpaF empresaBppF
    let aco := contas.1
    let pco := contas.2.1
    let ap := contas.2.2.1
    let pl := contas.2.2.2.1
    let pnc := contas.2.2.2.2
    if aco.isEmpty || pco.isEmpty || ap.isEmpty || pl.isEmpty || pnc.isEmpty then
      Except.ok none
    else
      let ncg := seriesSub aco pco
      let cdg := seriesSub (seriesAdd pl pnc) ap
      let t := seriesSub cdg ncg
      let efeito := efeitoTesouraCalc ncg cdg t
      match inp.infoRes with
      | Except.error _ => Except.error PyError.nameError
      | Except.ok info =>
        let z : Option ℚ :=
          match lastE (obter_historico_metrica empresaBpaF "1"),
              lastE (obter_historico_metrica empresaBppF "2"),
              lastE (obter_historico_metrica empresaDreF "3.05"),
              lastE (obter_historico_metrica empresaDreF "3.01") with
          | Except.ok ativoTotal, Except.ok passivoTotal, Except.ok ebit, Except.ok vendas =>
            let marketCap := info.marketCap.getD 0
            let lucroRetido := lastD pl 0 - firstD pl 0
            let x1 := lastD cdg 0 / ativoTotal
            let x2 := lucroRetido / ativoTotal
            let x3 := ebit / ativoTotal
            let x4 := if 0 < passivoTotal then marketCap / passivoTotal else 0
            let x5 := vendas / ativoTotal
            some (0.038 * x1 + 1.253 * x2 + 2.331 * x3 + 0.511 * x4 + 0.824 * x5)
          | _, _, _, _ => none
        let classificacao :=
          match z with
          | some zv =>
            if zv < 1.81 then "Risco Elevado"
            else if zv < 2.99 then "Zona Cinzenta"
            else "Saudável"
          | none => "Erro no cálculo"
        Except.ok (some
          { tickerOut := inp.ticker.replace ".SA" ""
            empresa := info.longName.getD inp.ticker
            ano := lastYearD t 0
            ncg := lastD ncg 0
            cdg := lastD cdg 0
            tesouraria := lastD t 0
            efeitoTesoura := efeito
            zScore := z
            classificacaoRisco := classificacao })

end FinApp

namespace FinApp

/-! ### Option Pricing & Risk Engine (`black_scholes`, `calcular_greeks`)

Float arithmetic is embedded in `ℝ`; `scipy.stats.norm.cdf`/`.pdf` are
the standard normal CDF and density, defined below from the Gaussian
integral. -/

/-- `option_type.lower()` (character-wise ASCII lowering, as applied to
the `'CALL'`/`'PUT'` labels of the options chain). -/
def strLower (s : String) : String := String.mk (s.data.map Char.toLower)

/-- The unnormalized standard Gaussian `exp(-t²/2)`. -/
noncomputable def stdGauss (t : ℝ) : ℝ := Real.exp (-(1 / 2) * t ^ 2)

/-- `norm.cdf`: the standard normal cumulative distribution function. -/
noncomputable def normCdf (x : ℝ) : ℝ :=
  (∫ t in Set.Iic x, stdGauss t) / Real.sqrt (2 * Real.pi)

/-- `norm.pdf`: the standard normal density. -/
noncomputable def normPdf (t : ℝ) : ℝ := stdGauss t / Real.sqrt (2 * Real.pi)

/-- `d1 = (ln(S/K) + (r + σ²/2)T) / (σ√T)`. -/
noncomputable def d1Of (S K T r sigma : ℝ) : ℝ :=
  (Real.log (S / K) + (r + 0.5 * sigma ^ 2) * T) / (sigma * Real.sqrt T)

/-- `d2 = d1 - σ√T`. -/
noncomputable def d2Of (S K T r sigma : ℝ) : ℝ :=
  d1Of S K T r sigma - sigma * Real.sqrt T

/-- `black_scholes(S, K, T, r, sigma, option_type)`: 0 when `T ≤ 0` or
`σ ≤ 0` (no extrapolation to intrinsic value); otherwise the closed-form
call/put price; 0 again for an unrecognized option type. -/
noncomputable def black_scholes (S K T r sigma : ℝ) (optionType : String) : ℝ :=
  if T ≤ 0 ∨ sigma ≤ 0 then 0
  else
    let d1 := d1Of S K T r sigma
    let d2 := d2Of S K T r sigma
    if strLower optionType = "call" then
      S * normCdf d1 - K * Real.exp (-r * T) * normCdf d2
    else if strLower optionType = "put" then
      K * Real.exp (-r * T) * normCdf (-d2) - S * normCdf (-d1)
    else 0

/-- The five option sensitivities. -/
structure Greeks where
  delta : ℝ
  gamma : ℝ
  vega : ℝ
  theta : ℝ
  rho : ℝ

/-- The all-zero Greeks dictionary the code starts from. -/
def greeksZero : Greeks := ⟨0, 0, 0, 0, 0⟩

/-- `calcular_greeks`: all five sensitivities are 0 when `T ≤ 0` or
`σ ≤ 0`; otherwise gamma and vega are set for both types, and delta,
theta, rho according to the option type (an unrecognized type keeps the
initial zeros for those three). -/
noncomputable def calcular_greeks (S K T r sigma : ℝ) (optionType : String) : Greeks :=
  if T ≤ 0 ∨ sigma ≤ 0 then greeksZero
  else
    let d1 := d1Of S K T r sigma
    let d2 := d2Of S K T r sigma
    let gamma := normPdf d1 / (S * sigma * Real.sqrt T)
    let vega := S * normPdf d1 * Real.sqrt T / 100
    if strLower optionType = "call" then
      { delta := normCdf d1
        gamma := gamma
        vega := vega
        theta := (-S * normPdf d1 * sigma / (2 * Real.sqrt T) -
            r * K * Real.exp (-r * T) * normCdf d2) / 365
        rho := K * T * Real.exp (-r * T) * normCdf d2 / 100 }
    else if strLower optionType = "put" then
      { delta := normCdf d1 - 1
        gamma := gamma
        vega := vega
        theta := (-S * normPdf d1 * sigma / (2 * Real.sqrt T) +
            r * K * Real.exp (-r * T) * normCdf (-d2)) / 365
        rho := -(K * T * Real.exp (-r * T) * normCdf (-d2) / 100) }
    else
      { delta := 0, gamma := gamma, vega := vega, theta := 0, rho := 0 }

/-- `diferenca_percentual`, line 1776 of `ui_black_scholes`:
`(preco_mercado - preco_bs) / preco_bs * 100 if preco_bs > 0 else 0`. -/
noncomputable def diferenca_percentual (precoMercado precoBs : ℝ) : ℝ :=
  if 0 < precoBs then (precoMercado - precoBs) / precoBs * 100 else 0

end FinApp

namespace FinApp

/-! ### Technical Signal Scorer (`analise_tecnica_ativo`, daily mode)

The indicator values come from `pandas_ta`; the scorer reduces each to a
vote in {-1, 0, +1} and combines the votes.  The vote dictionary of the
daily branch always carries exactly the seven keys below. -/

/-- RSI vote: `<30 → +1`, `>70 → -1`, else 0. -/
def rsiSignal (rsi : ℚ) : Int :=
  if rsi < 30 then 1 else if 70 < rsi then -1 else 0

/-- MACD vote: MACD line above signal line `→ +1`, else `-1`. -/
def macdSignal (macd macds : ℚ) : Int := if macds < macd then 1 else -1

/-- Bollinger vote: close below lower band `→ +1`, above upper `→ -1`,
else 0. -/
def bollingerSignal (close bbl bbu : ℚ) : Int :=
  if close < bbl then 1 else if bbu < close then -1 else 0

/-- EMA vote: `EMA_9 > EMA_21 → +1`, else `-1`. -/
def emaSignal (ema9 ema21 : ℚ) : Int := if ema21 < ema9 then 1 else -1

/-- ADX vote: `ADX > 25` with `+DI > -DI → +1`, with `-DI > +DI → -1`,
else 0. -/
def adxSignal (adx dmp dmn : ℚ) : Int :=
  if 25 < adx ∧ dmn < dmp then 1
  else if 25 < adx ∧ dmp < dmn then -1
  else 0

/-- Stochastic vote: `%K < 20 → +1`, `> 80 → -1`, else 0. -/
def stochSignal (stochK : ℚ) : Int :=
  if stochK < 20 then 1 else if 80 < stochK then -1 else 0

/-- Parabolic SAR vote: long column present `→ +1`, short column present
`→ -1`, else 0. -/
def sarSignal (psarlPresent psarsPresent : Bool) : Int :=
  if psarlPresent then 1 else if psarsPresent then -1 else 0

/-- The `sinais` dictionary of the daily branch. -/
structure Sinais where
  rsi : Int
  macd : Int
  bollinger : Int
  ema : Int
  adx : Int
  stoch : Int
  sar : Int

/-- The `pesos` dictionary, in insertion order. -/
def pesos : List (String × ℚ) :=
  [("RSI", 0.20), ("MACD", 0.20), ("BOLLINGER", 0.15), ("EMA", 0.15),
   ("ADX", 0.10), ("STOCH", 0.08), ("SAR", 0.07)]

/-- `pesos.get(ind, 0)`. -/
def pesosGet (ind : String) : ℚ :=
  ((pesos.find? fun p => p.1 == ind).map Prod.snd).getD 0

/-- `sinais.items()` for the daily branch, in insertion order. -/
def sinaisItems (s : Sinais) : List (String × Int) :=
  [("RSI", s.rsi), ("MACD", s.macd), ("BOLLINGER", s.bollinger),
   ("EMA", s.ema), ("ADX", s.adx), ("STOCH", s.stoch), ("SAR", s.sar)]

/-- `score = sum(pesos.get(ind, 0) * valor for ind, valor in sinais.items())`. -/
def score (s : Sinais) : ℚ :=
  (sinaisItems s).foldl (fun acc p => acc + pesosGet p.1 * (p.2 : ℚ)) 0

/-- `score_ajustado = score + 0.15 * weekly_bias`. -/
def score_ajustado (s : Sinais) (weeklyBias : Int) : ℚ :=
  score s + 0.15 * (weeklyBias : ℚ)

/-- The final label, lines 1612-1628: the confirmation combos and the
two caller-supplied thresholds. -/
def sinal_final (s : Sinais) (weeklyBias : Int) (forte normal : ℚ) : String :=
  let sa := score_ajustado s weeklyBias
  let tendenciaAlta := 0 < s.macd ∨ 0 < s.ema
  let momentoAlta := 0 < s.rsi ∨ 0 < s.stoch
  let tendenciaBaixa := s.macd < 0 ∨ s.ema < 0
  let momentoBaixa := s.rsi < 0 ∨ s.stoch < 0
  if forte < sa ∧ tendenciaAlta ∧ momentoAlta then "COMPRA FORTE"
  else if normal < sa then "COMPRA"
  else if sa < -forte ∧ tendenciaBaixa ∧ momentoBaixa then "VENDA FORTE"
  else if sa < -normal then "VENDA"
  else "NEUTRO"

end FinApp

namespace FinApp

/-! ### Concrete sample inputs

Small statement tables and market snapshots used to instantiate the
theorems below on concrete data. -/

/-- A definitive (`'ÚLTIMO'`) statement row of company 1, dated at the
end of the given calendar year. -/
def mkRow (conta : String) (y : Int) (v : ℚ) : CvmRow :=
  { cdCvm := 1, cdConta := conta, dtReferYear := y, dtReferDay := 364,
    ordemExerc := "ÚLTIMO", vlConta := v }

/-- Sample income statement: EBIT 100, taxes 30, pre-tax income 100,
revenue 200, net income 50, financial expense -10, year 2021. -/
def dreSample : List CvmRow :=
  [mkRow "3.05" 2021 100, mkRow "3.10" 2021 30, mkRow "3.09" 2021 100,
   mkRow "3.01" 2021 200, mkRow "3.11" 2021 50, mkRow "3.07" 2021 (-10)]

/-- Sample asset side: receivables 30, inventory 20, fixed assets 100,
intangibles 10. -/
def bpaSample : List CvmRow :=
  [mkRow "1.01.03" 2021 30, mkRow "1.01.04" 2021 20,
   mkRow "1.02.01" 2021 100, mkRow "1.02.03" 2021 10]

/-- Sample liability side: payables 25, no debt, equity 100. -/
def bppSample : List CvmRow :=
  [mkRow "2.01.02" 2021 25, mkRow "2.01.04" 2021 0,
   mkRow "2.02.01" 2021 0, mkRow "2.03" 2021 100]

/-- Sample cash-flow statement: depreciation 5. -/
def dfcSample : List CvmRow := [mkRow "6.01" 2021 5]

/-- A market snapshot whose `sharesOutstanding` is negative: truthy (so
it passes the `all([...])` guard) yet `≤ 0`. -/
def infoNegShares : YfInfo :=
  { marketCap := some 1000, currentPrice := some 10, previousClose := none,
    longName := some "ACME", sharesOutstanding := some (-1) }

/-- A complete valuation input that passes every guard and reaches the
result record with `sharesOutstanding = -1`. -/
def cinNegShares : ValuationInput :=
  { ticker := "ACME3.SA", dre := dreSample, bpa := bpaSample, bpp := bppSample,
    dfc := dfcSample, codigoCvm := 1, infoRes := Except.ok infoNegShares,
    betaMercado := 1,
    market := { riskFreeRate := 1 / 10, premioRiscoMercado := 1 / 20 },
    params := { taxaCrescimentoPerpetuidade := 1 / 25, mediaAnosCalculo := 3 } }

/-- A degenerate market snapshot (everything zero). -/
def infoZero : YfInfo :=
  { marketCap := some 0, currentPrice := some 0, previousClose := none,
    longName := some "ACME", sharesOutstanding := some 0 }

/-- A valuation input with empty statement tables and a zero market
snapshot: its computed WACC is 0, below the 4% growth rate. -/
def cinLowWacc : ValuationInput :=
  { ticker := "ACME3.SA", dre := [], bpa := [], bpp := [], dfc := [],
    codigoCvm := 1, infoRes := Except.ok infoZero, betaMercado := 0,
    market := { riskFreeRate := 0, premioRiscoMercado := 0 },
    params := { taxaCrescimentoPerpetuidade := 1 / 25, mediaAnosCalculo := 3 } }

/-- A Fleuriet input with complete statement data whose market-cap
lookup (`yf.Ticker(...).info`) raises. -/
def finInfoRaises : FleurietInput :=
  { ticker := "ACME3.SA",
    bpa := bpaSample ++ [mkRow "1" 2021 165, mkRow "1.02" 2021 110],
    bpp := bppSample ++ [mkRow "2" 2021 65, mkRow "2.02" 2021 40],
    dre := dreSample, codigoCvm := 1, infoRes := Except.error () }

/-- The same Fleuriet input with the market-cap lookup succeeding but the
total-assets account (`1`) absent, so `iloc[-1]` on its empty series
raises inside the `try`. -/
def finNoAtivoTotal : FleurietInput :=
  { ticker := "ACME3.SA",
    bpa := bpaSample ++ [mkRow "1.02" 2021 110],
    bpp := bppSample ++ [mkRow "2" 2021 65, mkRow "2.02" 2021 40],
    dre := dreSample, codigoCvm := 1,
    infoRes := Except.ok infoNegShares }

/-- Sample NCG series for the scissors-effect test. -/
def ncgSample : Series := [(2020, 10), (2021, 30)]

/-- Sample CDG series for the scissors-effect test. -/
def cdgSample : Series := [(2020, 50), (2021, 55)]

/-- Sample treasury series, nonnegative in the latest year. -/
def tSample : Series := [(2020, 40), (2021, 25)]

/-- The Z-score of a Fleuriet outcome, when a result row was produced. -/
def zScoreOf : Except PyError (Option FleurietResult) → Option (Option ℚ)
  | Except.ok (some r) => some r.zScore
  | _ => none

/-- The risk class of a Fleuriet outcome, when a result row was produced. -/
def classificacaoOf : Except PyError (Option FleurietResult) → Option String
  | Except.ok (some r) => some r.classificacaoRisco
  | _ => none

/-- The treasury balance of a Fleuriet outcome, when a result row was
produced. -/
def tesourariaOf : Except PyError (Option FleurietResult) → Option ℚ
  | Except.ok (some r) => some r.tesouraria
  | _ => none

/-- The NCG of a Fleuriet outcome, when a result row was produced. -/
def ncgOf : Except PyError (Option FleurietResult) → Option ℚ
  | Except.ok (some r) => some r.ncg
  | _ => none

/-- The CDG of a Fleuriet outcome, when a result row was produced. -/
def cdgOf : Except PyError (Option FleurietResult) → Option ℚ
  | Except.ok (some r) => some r.cdg
  | _ => none

/-- The scissors-effect flag of a Fleuriet outcome, when a result row
was produced. -/
def efeitoTesouraOf : Except PyError (Option FleurietResult) → Option Bool
  | Except.ok (some r) => some r.efeitoTesoura
  | _ => none

end FinApp

namespace FinApp

/-! ### Lemmas about the Series Aligner -/

theorem dtLe_refl (a : CvmRow) : dtLe a a = true := by
  simp [dtLe]

theorem dtLe_total (a b : CvmRow) : dtLe a b = true ∨ dtLe b a = true := by
  simp [dtLe]; omega

theorem dtLe_trans (a b c : CvmRow) (h1 : dtLe a b = true) (h2 : dtLe b c = true) :
    dtLe a c = true := by
  simp [dtLe] at h1 h2 ⊢; omega

theorem insertYear_mem (y : Int) (l : List Int) (z : Int) :
    z ∈ insertYear y l ↔ z = y ∨ z ∈ l := by
  induction l with
  | nil => simp [insertYear]
  | cons x xs ih =>
    unfold insertYear
    by_cases h1 : y < x
    · simp [h1]
    · by_cases h2 : y = x
      · subst h2
        rw [if_neg h1, if_pos rfl, List.mem_cons]
        tauto
      · rw [if_neg h1, if_neg h2, List.mem_cons, List.mem_cons]
        rw [ih]
        tauto

theorem insertYear_pairwise (y : Int) (l : List Int)
    (hl : l.Pairwise (· < ·)) : (insertYear y l).Pairwise (· < ·) := by
  induction l with
  | nil => simp [insertYear]
  | cons x xs ih =>
    rw [List.pairwise_cons] at hl
    obtain ⟨hx, hxs⟩ := hl
    unfold insertYear
    by_cases h1 : y < x
    · simp only [h1, if_true]
      rw [List.pairwise_cons]
      refine ⟨?_, List.pairwise_cons.mpr ⟨hx, hxs⟩⟩
      intro z hz
      rcases List.mem_cons.mp hz with h | h
      · omega
      · have := hx z h; omega
    · by_cases h2 : y = x
      · subst h2
        rw [if_neg h1, if_pos rfl]
        exact List.pairwise_cons.mpr ⟨hx, hxs⟩
      · rw [if_neg h1, if_neg h2]
        rw [List.pairwise_cons]
        refine ⟨?_, ih hxs⟩
        intro z hz
        rcases (insertYear_mem y xs z).mp hz with h | h
        · omega
        · exact hx z h

theorem yearsOf_go_pairwise (rows : List CvmRow) :
    ∀ acc : List Int, acc.Pairwise (· < ·) →
      (rows.foldl (fun acc r => insertYear r.dtReferYear acc) acc).Pairwise (· < ·) := by
  induction rows with
  | nil => intro acc h; simpa using h
  | cons r rs ih =>
    intro acc h
    simpa [List.foldl_cons] using ih (insertYear r.dtReferYear acc) (insertYear_pairwise _ _ h)

theorem yearsOf_pairwise (rows : List CvmRow) : (yearsOf rows).Pairwise (· < ·) :=
  yearsOf_go_pairwise rows [] List.Pairwise.nil

theorem yearsOf_go_mem (rows : List CvmRow) :
    ∀ (acc : List Int) (y : Int),
      y ∈ rows.foldl (fun acc r => insertYear r.dtReferYear acc) acc ↔
        y ∈ acc ∨ ∃ r ∈ rows, r.dtReferYear = y := by
  induction rows with
  | nil => intro acc y; simp
  | cons r rs ih =>
    intro acc y
    rw [List.foldl_cons, ih, insertYear_mem]
    constructor
    · rintro ((h | h) | ⟨r2, hr2, hy⟩)
      · exact Or.inr ⟨r, by simp, h.symm⟩
      · exact Or.inl h
      · exact Or.inr ⟨r2, by simp [hr2], hy⟩
    · rintro (h | ⟨r2, hr2, hy⟩)
      · exact Or.inl (Or.inr h)
      · rcases List.mem_cons.mp hr2 with h | h
        · subst h; exact Or.inl (Or.inl hy.symm)
        · exact Or.inr ⟨r2, h, hy⟩

theorem yearsOf_mem (rows : List CvmRow) (y : Int) :
    y ∈ yearsOf rows ↔ ∃ r ∈ rows, r.dtReferYear = y := by
  rw [yearsOf, yearsOf_go_mem]; simp

theorem latestRow_go (l : List CvmRow) :
    ∀ b : CvmRow,
      ∃ r, l.foldl
          (fun acc r =>
            match acc with
            | none => some r
            | some b => if dtLe b r then some r else some b)
          (some b) = some r ∧
        (r = b ∨ r ∈ l) ∧ dtLe b r = true ∧ ∀ x ∈ l, dtLe x r = true := by
  induction l with
  | nil => intro b; exact ⟨b, rfl, Or.inl rfl, dtLe_refl b, by simp⟩
  | cons x xs ih =>
    intro b
    rw [List.foldl_cons]
    by_cases h : dtLe b x
    · simp only [h, if_true]
      obtain ⟨r, h1, h2, h3, h4⟩ := ih x
      refine ⟨r, h1, ?_, dtLe_trans b x r (by simpa using h) h3, ?_⟩
      · rcases h2 with h2 | h2
        · exact Or.inr (by simp [h2])
        · exact Or.inr (by simp [h2])
      · intro z hz
        rcases List.mem_cons.mp hz with hz | hz
        · subst hz; exact h3
        · exact h4 z hz
    · simp only [h, if_false]
      obtain ⟨r, h1, h2, h3, h4⟩ := ih b
      refine ⟨r, h1, ?_, h3, ?_⟩
      · rcases h2 with h2 | h2
        · exact Or.inl h2
        · exact Or.inr (by simp [h2])
      · intro z hz
        rcases List.mem_cons.mp hz with hz | hz
        · subst hz
          rcases dtLe_total z b with hd | hd
          · exact dtLe_trans z b r hd h3
          · exact absurd hd (by simpa using h)
        · exact h4 z hz

theorem latestRow_mem_max (l : List CvmRow) (r : CvmRow) (h : latestRow l = some r) :
    r ∈ l ∧ ∀ x ∈ l, dtLe x r = true := by
  cases l with
  | nil => simp [latestRow] at h
  | cons x xs =>
    rw [latestRow, List.foldl_cons] at h
    obtain ⟨r2, h1, h2, h3, h4⟩ := latestRow_go xs x
    rw [h1] at h
    injection h with h
    subst h
    constructor
    · rcases h2 with h2 | h2
      · simp [h2]
      · simp [h2]
    · intro z hz
      rcases List.mem_cons.mp hz with hz | hz
      · subst hz; exact h3
      · exact h4 z hz

theorem latestRow_isSome (l : List CvmRow) (hne : l ≠ []) : ∃ r, latestRow l = some r := by
  cases l with
  | nil => exact absurd rfl hne
  | cons x xs =>
    rw [latestRow, List.foldl_cons]
    obtain ⟨r, h1, _, _, _⟩ := latestRow_go xs x
    exact ⟨r, h1⟩

theorem filterMap_year_pairwise (g : Int → Option (Int × ℚ))
    (hg : ∀ y p, g y = some p → p.1 = y) :
    ∀ ys : List Int, ys.Pairwise (· < ·) →
      (ys.filterMap g).Pairwise (fun p q : Int × ℚ => p.1 < q.1) := by
  intro ys
  induction ys with
  | nil => intro _; simp
  | cons x xs ih =>
    intro h
    rw [List.pairwise_cons] at h
    obtain ⟨hx, hxs⟩ := h
    rw [List.filterMap_cons]
    cases hgx : g x with
    | none => exact ih hxs
    | some p =>
      rw [List.pairwise_cons]
      refine ⟨?_, ih hxs⟩
      intro q hq
      obtain ⟨y2, hy2, hgy2⟩ := List.mem_filterMap.mp hq
      rw [hg x p hgx, hg y2 q hgy2]
      exact hx y2 hy2

/-- C9.  Series Aligner contract: the extracted series has strictly
increasing years (hence exactly one value per year); each entry carries
the value of a definitive (`'ÚLTIMO'`) row of the target account with
the latest fiscal-year-end date inside its calendar year; every matching
row's year appears; re-extraction from the same table yields the same
series; and when no row matches the result is the empty series rather
than an error. -/
theorem obter_historico_metrica_spec (df : List CvmRow) (codigo : String) :
    (obter_historico_metrica df codigo).Pairwise (fun p q => p.1 < q.1) ∧
    (∀ p ∈ obter_historico_metrica df codigo,
      ∃ r, r ∈ df ∧ isUltimo codigo r = true ∧ r.dtReferYear = p.1 ∧ r.vlConta = p.2 ∧
        ∀ x, x ∈ df → isUltimo codigo x = true → x.dtReferYear = p.1 →
          x.dtReferDay ≤ r.dtReferDay) ∧
    (∀ r, r ∈ df → isUltimo codigo r = true →
      ∃ v, (r.dtReferYear, v) ∈ obter_historico_metrica df codigo) ∧
    obter_historico_metrica df codigo = obter_historico_metrica df codigo ∧
    ((∀ r ∈ df, isUltimo codigo r = false) → obter_historico_metrica df codigo = []) := by
  refine ⟨?_, ?_, ?_, rfl, ?_⟩
  · simp only [obter_historico_metrica]
    split
    · simp
    · apply filterMap_year_pairwise
      · intro y p hp
        rw [Option.map_eq_some'] at hp
        obtain ⟨r0, _, hr0⟩ := hp
        rw [← hr0]
      · exact yearsOf_pairwise _
  · intro p hp
    simp only [obter_historico_metrica] at hp
    split at hp
    · simp at hp
    · obtain ⟨y, hy, hgy⟩ := List.mem_filterMap.mp hp
      rw [Option.map_eq_some'] at hgy
      obtain ⟨r0, hlr, hp0⟩ := hgy
      obtain ⟨hmem, hmax⟩ := latestRow_mem_max _ _ hlr
      rw [List.mem_filter] at hmem
      obtain ⟨hm1, hm2⟩ := hmem
      rw [List.mem_filter] at hm1
      have hyear : r0.dtReferYear = y := by simpa using hm2
      subst hp0
      refine ⟨r0, hm1.1, hm1.2, hyear, rfl, ?_⟩
      intro x hx hux hyx
      have hxg : x ∈ (df.filter (isUltimo codigo)).filter
          fun r => r.dtReferYear == y := by
        rw [List.mem_filter]
        exact ⟨List.mem_filter.mpr ⟨hx, hux⟩, by simp [hyx]⟩
      have hd := hmax x hxg
      simp only [dtLe, Bool.or_eq_true, Bool.and_eq_true, decide_eq_true_eq,
        beq_iff_eq] at hd
      omega
  · intro r hr hu
    have hrm : r ∈ df.filter (isUltimo codigo) := List.mem_filter.mpr ⟨hr, hu⟩
    have hne : df.filter (isUltimo codigo) ≠ [] := by
      intro h; rw [h] at hrm; simp at hrm
    have hy : r.dtReferYear ∈ yearsOf (df.filter (isUltimo codigo)) :=
      (yearsOf_mem _ _).mpr ⟨r, hrm, rfl⟩
    have hgrp : r ∈ (df.filter (isUltimo codigo)).filter
        fun x => x.dtReferYear == r.dtReferYear :=
      List.mem_filter.mpr ⟨hrm, by simp⟩
    have hgne : ((df.filter (isUltimo codigo)).filter
        fun x => x.dtReferYear == r.dtReferYear) ≠ [] := by
      intro h; rw [h] at hgrp; simp at hgrp
    obtain ⟨r0, hr0⟩ := latestRow_isSome _ hgne
    refine ⟨r0.vlConta, ?_⟩
    simp only [obter_historico_metrica]
    rw [if_neg (by simpa [List.isEmpty_iff] using hne)]
    exact List.mem_filterMap.mpr ⟨r.dtReferYear, hy, by rw [hr0]; rfl⟩
  · intro hall
    have hnil : df.filter (isUltimo codigo) = [] := by
      rw [List.filter_eq_nil_iff]
      intro a ha
      rw [hall a ha]
      simp
    simp only [obter_historico_metrica, hnil]
    simp

/-- Witness for C9: the sample income statement yields a series with
strictly increasing years. -/
theorem obter_historico_metrica_spec_witness :
    (obter_historico_metrica dreSample "3.05").Pairwise (fun p q => p.1 < q.1) :=
  (obter_historico_metrica_spec dreSample "3.05").1

/-- C4 counterexample.  The unlever/relever round trip is not the
identity for every tax rate, debt and market capitalization: at levered
beta 1, tax rate 2, debt 1 and market capitalization 1 the unlevering
factor `1 + (1 - imposto) * divida/market_cap` is zero, the unlevering
divides by zero (non-finite in the float source, junk 0 in this exact
embedding — in either semantics not the levered beta), and the function
does not return the original beta 1. -/
theorem calcular_beta_hamada_not_roundtrip : calcular_beta_hamada 1 2 1 1 ≠ 1 := by
  unfold calcular_beta_hamada
  norm_num

/-- C4 amended.  Whenever the unlevering denominator
`1 + (1 - imposto) * (divida/market_cap)` is nonzero, unlevering and then
relevering by the same factor returns exactly the original levered beta;
this includes the guard cases (zero market capitalization or zero
enterprise value), which return the levered beta unchanged. -/
theorem calcular_beta_hamada_roundtrip (beta imposto divida mcap : ℚ)
    (h : 1 + (1 - imposto) * (divida / mcap) ≠ 0) :
    calcular_beta_hamada beta imposto divida mcap = beta := by
  unfold calcular_beta_hamada
  split
  · rfl
  · exact div_mul_cancel₀ beta h

/-- Witness for C4: a round trip at levered beta 2, tax rate 25%, debt
50 and market capitalization 100. -/
theorem calcular_beta_hamada_roundtrip_witness :
    calcular_beta_hamada 2 (1 / 4) 50 100 = 2 :=
  calcular_beta_hamada_roundtrip 2 (1 / 4) 50 100 (by norm_num)

/-! ### Evaluation of the valuation pipeline on `cinNegShares` -/

theorem buildResult_margem (inp : ValuationInput) (info : YfInfo) :
    (buildResult inp info).margemSeguranca =
      if 0 < info.sharesOutstanding.getD 0 ∧ 0 < (precoAtualOf info).getD 0 then
        ((info.marketCap.getD 0 + dividaUltimo inp - lastD (colCapital inp) 0 +
              lastD (colCapital inp) 0 - dividaUltimo inp) /
            info.sharesOutstanding.getD 0 / (precoAtualOf info).getD 0 - 1) * 100
      else -100 := rfl

theorem buildResult_precoJusto (inp : ValuationInput) (info : YfInfo) :
    (buildResult inp info).precoJusto =
      if 0 < info.sharesOutstanding.getD 0 then
        (info.marketCap.getD 0 + dividaUltimo inp - lastD (colCapital inp) 0 +
            lastD (colCapital inp) 0 - dividaUltimo inp) /
          info.sharesOutstanding.getD 0
      else 0 := rfl

theorem cinNegShares_eval :
    processar_valuation_empresa cinNegShares = Except.ok (buildResult cinNegShares infoNegShares) := by
  have hdre : empresaDre cinNegShares = dreSample := by
    simp [empresaDre, cinNegShares, dreSample, mkRow]
  have hbpa : empresaBpa cinNegShares = bpaSample := by
    simp [empresaBpa, cinNegShares, bpaSample, mkRow]
  have hbpp : empresaBpp cinNegShares = bppSample := by
    simp [empresaBpp, cinNegShares, bppSample, mkRow]
  have hdfc : empresaDfc cinNegShares = dfcSample := by
    simp [empresaDfc, cinNegShares, dfcSample, mkRow]
  have hebit : histEbit cinNegShares = [(2021, 100)] := by
    simp [histEbit, hdre, obter_historico_metrica, dreSample, mkRow, isUltimo, latestRow,
      yearsOf, insertYear, dtLe]
  have hlai : histLai cinNegShares = [(2021, 100)] := by
    simp [histLai, hdre, obter_historico_metrica, dreSample, mkRow, isUltimo, latestRow,
      yearsOf, insertYear, dtLe]
  have himp : histImpostos cinNegShares = [(2021, 30)] := by
    simp [histImpostos, hdre, obter_historico_metrica, dreSample, mkRow, isUltimo, latestRow,
      yearsOf, insertYear, dtLe]
  have hrec : histRecLiquida cinNegShares = [(2021, 200)] := by
    simp [histRecLiquida, hdre, obter_historico_metrica, dreSample, mkRow, isUltimo, latestRow,
      yearsOf, insertYear, dtLe]
  have hll : histLucroLiquido cinNegShares = [(2021, 50)] := by
    simp [histLucroLiquido, hdre, obter_historico_metrica, dreSample, mkRow, isUltimo, latestRow,
      yearsOf, insertYear, dtLe]
  have hcar : histContasAReceber cinNegShares = [(2021, 30)] := by
    simp [histContasAReceber, hbpa, obter_historico_metrica, bpaSample, mkRow, isUltimo,
      latestRow, yearsOf, insertYear, dtLe]
  have hest : histEstoques cinNegShares = [(2021, 20)] := by
    simp [histEstoques, hbpa, obter_historico_metrica, bpaSample, mkRow, isUltimo,
      latestRow, yearsOf, insertYear, dtLe]
  have hforn : histFornecedores cinNegShares = [(2021, 25)] := by
    simp [histFornecedores, hbpp, obter_historico_metrica, bppSample, mkRow, isUltimo,
      latestRow, yearsOf, insertYear, dtLe]
  have himob : histAtivoImobilizado cinNegShares = [(2021, 100)] := by
    simp [histAtivoImobilizado, hbpa, obter_historico_metrica, bpaSample, mkRow, isUltimo,
      latestRow, yearsOf, insertYear, dtLe]
  have hint : histAtivoIntangivel cinNegShares = [(2021, 10)] := by
    simp [histAtivoIntangivel, hbpa, obter_historico_metrica, bpaSample, mkRow, isUltimo,
      latestRow, yearsOf, insertYear, dtLe]
  have hcp : histDividaCp cinNegShares = [(2021, 0)] := by
    simp [histDividaCp, hbpp, obter_historico_metrica, bppSample, mkRow, isUltimo,
      latestRow, yearsOf, insertYear, dtLe]
  have hlp : histDividaLp cinNegShares = [(2021, 0)] := by
    simp [histDividaLp, hbpp, obter_historico_metrica, bppSample, mkRow, isUltimo,
      latestRow, yearsOf, insertYear, dtLe]
  have hdesp : histDespFinanceira cinNegShares = [(2021, 10)] := by
    have h37 : obter_historico_metrica (empresaDre cinNegShares) "3.07" = [(2021, -10)] := by
      simp [hdre, obter_historico_metrica, dreSample, mkRow, isUltimo, latestRow,
        yearsOf, insertYear, dtLe]
    simp [histDespFinanceira, h37, seriesMapVal]
  have hpl : histPlTotal cinNegShares = [(2021, 100)] := by
    simp [histPlTotal, hbpp, obter_historico_metrica, bppSample, mkRow, isUltimo,
      latestRow, yearsOf, insertYear, dtLe]
  have hdep : histDepAmort cinNegShares = [(2021, 5)] := by
    simp [histDepAmort, hdfc, obter_historico_metrica, dfcSample, mkRow, isUltimo,
      latestRow, yearsOf, insertYear, dtLe]
  have hali : aliquotaEfetiva cinNegShares = 3 / 10 := by
    rw [aliquotaEfetiva, hlai, himp]
    simp [seriesSum]
    norm_num
  have hnopat : histNopat cinNegShares = [(2021, 70)] := by
    rw [histNopat, hali, hebit]
    simp [seriesMapVal]
    norm_num
  have hfco : histFco cinNegShares = [(2021, 75)] := by
    rw [histFco, hnopat, hdep]
    simp [seriesAdd, mergeWith]
    norm_num
  have hncg : histNcg cinNegShares = [(2021, 25)] := by
    rw [histNcg, hcar, hest, hforn]
    simp [seriesAdd, seriesSub, mergeWith]
    norm_num
  have hcap : histCapitalEmpregado cinNegShares = [(2021, 135)] := by
    rw [histCapitalEmpregado, hncg, himob, hint]
    simp [seriesAdd, mergeWith]
    norm_num
  have hanos : anosComuns cinNegShares = [2021] := by
    rw [anosComuns, hnopat, hfco, hcap, hcp, hlp, hdesp, hpl, hrec, hll,
      hcar, hest, hforn, hebit, hdep]
    simp [commonYears]
  have hcolCp : colDividaCp cinNegShares = [(2021, 0)] := by
    rw [colDividaCp, hanos, hcp]; simp [restrict, lookupYear]
  have hcolLp : colDividaLp cinNegShares = [(2021, 0)] := by
    rw [colDividaLp, hanos, hlp]; simp [restrict, lookupYear]
  have hdivtot : histDividaTotal cinNegShares = [(2021, 0)] := by
    rw [histDividaTotal, hcolCp, hcolLp]
    simp [seriesZip]
  have hdiv : dividaUltimo cinNegShares = 0 := by
    rw [dividaUltimo, hdivtot]; simp [lastD]
  have hbeta : betaHamadaOf cinNegShares infoNegShares = 1 := by
    rw [betaHamadaOf, hali, hdiv]
    have hbm : cinNegShares.betaMercado = 1 := rfl
    have hmc : infoNegShares.marketCap.getD 0 = 1000 := rfl
    rw [hbm, hmc, calcular_beta_hamada]
    norm_num
  have hke : keOf cinNegShares infoNegShares = 3 / 20 := by
    rw [keOf, hbeta]
    have h1 : cinNegShares.market.riskFreeRate = 1 / 10 := rfl
    have h2 : cinNegShares.market.premioRiscoMercado = 1 / 20 := rfl
    rw [h1, h2]; norm_num
  have hev : evOf cinNegShares infoNegShares = 1000 := by
    rw [evOf, hdiv]
    have hmc : infoNegShares.marketCap.getD 0 = 1000 := rfl
    rw [hmc]; norm_num
  have hwacc : waccOf cinNegShares infoNegShares = 3 / 20 := by
    rw [waccOf, hev, hdiv, hke]
    norm_num
  have hguard1 : ((empresaDre cinNegShares).isEmpty || (empresaBpa cinNegShares).isEmpty ||
      (empresaBpp cinNegShares).isEmpty || (empresaDfc cinNegShares).isEmpty) = false := by
    rw [hdre, hbpa, hbpp, hdfc]
    simp [dreSample, bpaSample, bppSample, dfcSample]
  have htruthy : pyTruthy infoNegShares.marketCap = true ∧
      pyTruthy (precoAtualOf infoNegShares) = true ∧
      pyTruthy infoNegShares.sharesOutstanding = true ∧
      pyTruthyStr infoNegShares.longName = true := by
    refine ⟨?_, ?_, ?_, ?_⟩ <;>
      simp [pyTruthy, pyTruthyStr, precoAtualOf, infoNegShares]
  have hc3 : ¬(seriesSum (histLai cinNegShares) = 0 ∨ (histEbit cinNegShares).isEmpty = true) := by
    rw [hlai, hebit]
    simp [seriesSum]
  have hc4 : ¬((anosComuns cinNegShares).isEmpty = true) := by rw [hanos]; simp
  have hc5 : ¬(waccOf cinNegShares infoNegShares ≤
      cinNegShares.params.taxaCrescimentoPerpetuidade) := by
    rw [hwacc]
    have hg : cinNegShares.params.taxaCrescimentoPerpetuidade = 1 / 25 := rfl
    rw [hg]; norm_num
  have hres : cinNegShares.infoRes = Except.ok infoNegShares := rfl
  rw [processar_valuation_empresa, hguard1, hres]
  simp only [Bool.false_eq_true, if_false]
  rw [if_neg, if_neg hc5, if_neg hc4, if_neg hc3]
  simp [htruthy.1, htruthy.2.1, htruthy.2.2.1, htruthy.2.2.2]

theorem cinNegShares_margem :
    (buildResult cinNegShares infoNegShares).margemSeguranca = -100 := by
  rw [buildResult_margem]
  have hsh : infoNegShares.sharesOutstanding.getD 0 = -1 := rfl
  rw [hsh, if_neg]
  norm_num

theorem cinNegShares_precoJusto :
    (buildResult cinNegShares infoNegShares).precoJusto = 0 := by
  rw [buildResult_precoJusto]
  have hsh : infoNegShares.sharesOutstanding.getD 0 = -1 := rfl
  rw [hsh, if_neg]
  norm_num

/-- C1 counterexample.  A complete valuation run with
`sharesOutstanding = -1 ≤ 0` produces a result whose reported margin of
safety is the ordinary number `-100` — a default numeric value, not a
visibly-undefined NaN/None. -/
theorem margem_sentinela_counterexample :
    margemOf (processar_valuation_empresa cinNegShares) = some (-100) := by
  rw [margemOf, cinNegShares_eval]
  simp [Except.toOption, cinNegShares_margem]

/-- C1 amended.  A valuation result with shares outstanding ≤ 0 is only
reachable with strictly negative shares (zero shares are falsy and fail
the market-data guard, returning no result); in that case the margin of
safety is the sentinel `-100` and the fair price is `0`, not an undefined
value. -/
theorem processar_valuation_nonpos_shares (inp : ValuationInput) (info : YfInfo)
    (r : ValuationResult) (s : ℚ)
    (hinfo : inp.infoRes = Except.ok info)
    (hs : info.sharesOutstanding = some s) (hneg : s ≤ 0)
    (hok : processar_valuation_empresa inp = Except.ok r) :
    r.margemSeguranca = -100 ∧ r.precoJusto = 0 := by
  rw [processar_valuation_empresa, hinfo] at hok
  split at hok
  · exact absurd hok (by simp)
  · split at hok
    · exact absurd hok (by simp)
    · rename_i info2 heq
      injection heq with heq
      subst heq
      split at hok
      · exact absurd hok (by simp)
      · rename_i htruthy
        split at hok
        · exact absurd hok (by simp)
        · split at hok
          · exact absurd hok (by simp)
          · split at hok
            · exact absurd hok (by simp)
            · injection hok with hok
              subst hok
              rw [not_not] at htruthy
              obtain ⟨_, _, hshares, _⟩ := htruthy
              rw [hs] at hshares
              simp only [pyTruthy, bne_iff_ne, ne_eq] at hshares
              have hlt : ¬(0 < s) := not_lt.mpr hneg
              constructor
              · rw [buildResult_margem, hs, Option.getD_some, if_neg]
                intro hc
                exact hlt hc.1
              · rw [buildResult_precoJusto, hs, Option.getD_some, if_neg hlt]

/-- Witness for C1 (amended): the concrete negative-shares run has
margin `-100` and fair price `0`. -/
theorem processar_valuation_nonpos_shares_witness :
    precoJustoOf (processar_valuation_empresa cinNegShares) = some 0 := by
  have h := processar_valuation_nonpos_shares cinNegShares infoNegShares
    (buildResult cinNegShares infoNegShares) (-1) rfl rfl (by norm_num) cinNegShares_eval
  rw [precoJustoOf, cinNegShares_eval]
  simp [Except.toOption, h.2]

/-- C7.  Whenever the computed WACC is at most the perpetuity growth
rate, the valuation returns no result, only an error message; a fair
price is never produced.  (In this exact rational embedding no NaN
exists, so the `pd.isna(wacc_medio)` disjunct of the source guard cannot
fire.) -/
theorem processar_valuation_invalid_wacc (inp : ValuationInput) (info : YfInfo)
    (hinfo : inp.infoRes = Except.ok info)
    (hw : waccOf inp info ≤ inp.params.taxaCrescimentoPerpetuidade) :
    ∃ msg, processar_valuation_empresa inp = Except.error msg := by
  rw [processar_valuation_empresa, hinfo]
  split
  · exact ⟨_, rfl⟩
  · split
    · exact ⟨_, rfl⟩
    · rename_i info2 heq
      injection heq with heq
      subst heq
      split
      · exact ⟨_, rfl⟩
      · split
        · exact ⟨_, rfl⟩
        · split
          · exact ⟨_, rfl⟩
          · exact ⟨_, rfl⟩

theorem cinLowWacc_wacc : waccOf cinLowWacc infoZero = 0 := by
  have hlai0 : histLai cinLowWacc = [] := rfl
  have hali0 : aliquotaEfetiva cinLowWacc = 0 := by
    rw [aliquotaEfetiva, hlai0]
    simp [seriesSum]
  have hanos0 : anosComuns cinLowWacc = [] := rfl
  have hdiv0 : dividaUltimo cinLowWacc = 0 := rfl
  have hbeta0 : betaHamadaOf cinLowWacc infoZero = 0 := by
    rw [betaHamadaOf, hali0, hdiv0]
    have hbm : cinLowWacc.betaMercado = 0 := rfl
    have hmc : infoZero.marketCap.getD 0 = 0 := rfl
    rw [hbm, hmc, calcular_beta_hamada]
    norm_num
  have hke0 : keOf cinLowWacc infoZero = 0 := by
    rw [keOf, hbeta0]
    have h1 : cinLowWacc.market.riskFreeRate = 0 := rfl
    have h2 : cinLowWacc.market.premioRiscoMercado = 0 := rfl
    rw [h1, h2]; norm_num
  have hev0 : evOf cinLowWacc infoZero = 0 := by
    rw [evOf, hdiv0]
    have hmc : infoZero.marketCap.getD 0 = 0 := rfl
    rw [hmc]; norm_num
  rw [waccOf, hev0, hdiv0, hke0]
  norm_num

/-- Witness for C7: the degenerate input computes WACC 0 ≤ 4% and the
valuation yields no result. -/
theorem processar_valuation_invalid_wacc_witness :
    (processar_valuation_empresa cinLowWacc).toOption = none := by
  have hw : waccOf cinLowWacc infoZero ≤ cinLowWacc.params.taxaCrescimentoPerpetuidade := by
    rw [cinLowWacc_wacc]
    have hg : cinLowWacc.params.taxaCrescimentoPerpetuidade = 1 / 25 := rfl
    rw [hg]; norm_num
  obtain ⟨msg, hmsg⟩ := processar_valuation_invalid_wacc cinLowWacc infoZero rfl hw
  rw [hmsg]
  rfl

/-- C3.  When the market-cap lookup (`yf.Ticker(ticker_sa).info`) raises,
`processar_analise_fleuriet` does not return the documented
"Erro no cálculo" row: the `except` clause swallows the exception, but
`info` was never bound, and the result line
`info.get('longName', ticker_sa)` raises `NameError` past the component
boundary, aborting the NCG/CDG/treasury/scissors fields that were already
computed. -/
theorem processar_analise_fleuriet_nameError :
    processar_analise_fleuriet finInfoRaises = Except.error PyError.nameError := by
  simp [processar_analise_fleuriet, finInfoRaises, reclassificarContas, bpaSample, bppSample,
    dreSample, mkRow, obter_historico_metrica, isUltimo, latestRow, yearsOf, insertYear,
    dtLe, seriesAdd, seriesSub, mergeWith]

/-- In contrast, an exception raised by a Z-score input *after* the
market-cap lookup succeeded (here: `iloc[-1]` on the missing total-assets
series) is handled as specified: the result row is still produced, with
class "Erro no cálculo", an undefined Z-score, and the
NCG/CDG/treasury/scissors fields intact. -/
theorem processar_analise_fleuriet_erro_calculo :
    classificacaoOf (processar_analise_fleuriet finNoAtivoTotal) = some "Erro no cálculo" ∧
    zScoreOf (processar_analise_fleuriet finNoAtivoTotal) = some none ∧
    ncgOf (processar_analise_fleuriet finNoAtivoTotal) = some 25 ∧
    cdgOf (processar_analise_fleuriet finNoAtivoTotal) = some 30 ∧
    tesourariaOf (processar_analise_fleuriet finNoAtivoTotal) = some 5 ∧
    efeitoTesouraOf (processar_analise_fleuriet finNoAtivoTotal) = some false := by
  refine ⟨?_, ?_, ?_, ?_, ?_, ?_⟩ <;>
    simp [processar_analise_fleuriet, finNoAtivoTotal, reclassificarContas, bpaSample,
      bppSample, dreSample, mkRow, obter_historico_metrica, isUltimo, latestRow, yearsOf,
      insertYear, dtLe, seriesAdd, seriesSub, mergeWith, lastE, infoNegShares,
      zScoreOf, classificacaoOf, ncgOf, cdgOf, tesourariaOf, efeitoTesouraOf,
      efeitoTesouraCalc, lastD] <;>
    norm_num

theorem pctGt_notna (a b : PctVal) (h : pctGt a b = true) :
    pctNotna a = true ∧ pctNotna b = true := by
  cases a <;> cases b <;> simp_all [pctGt, pctNotna]

/-- C8.  The scissors-effect flag is true iff both the NCG and CDG
series have at least two points, NCG's latest year-over-year growth rate
exceeds CDG's (an IEEE comparison, false on NaN), and the latest
treasury balance is negative.  In particular the flag is false whenever
the latest treasury balance is ≥ 0, and an undefined (NaN) growth rate
makes the comparison false rather than raising. -/
theorem efeito_tesoura_spec (ncg cdg t : Series) :
    (efeitoTesouraCalc ncg cdg t = true ↔
      (2 ≤ ncg.length ∧ 2 ≤ cdg.length ∧
        pctGt (pctChangeLast ncg) (pctChangeLast cdg) = true ∧ lastD t 0 < 0)) ∧
    (0 ≤ lastD t 0 → efeitoTesouraCalc ncg cdg t = false) ∧
    ((pctChangeLast ncg = PctVal.nan ∨ pctChangeLast cdg = PctVal.nan) →
      efeitoTesouraCalc ncg cdg t = false) := by
  have hiff : efeitoTesouraCalc ncg cdg t = true ↔
      (2 ≤ ncg.length ∧ 2 ≤ cdg.length ∧
        pctGt (pctChangeLast ncg) (pctChangeLast cdg) = true ∧ lastD t 0 < 0) := by
    unfold efeitoTesouraCalc
    split
    · rename_i hlen
      dsimp only
      split
      · rename_i hc
        simp only [true_iff]
        exact ⟨by omega, by omega, hc.2.2.1, hc.2.2.2⟩
      · rename_i hc
        simp only [Bool.false_eq_true, false_iff]
        rintro ⟨h1, h2, h3, h4⟩
        exact hc ⟨(pctGt_notna _ _ h3).1, (pctGt_notna _ _ h3).2, h3, h4⟩
    · rename_i hlen
      simp only [Bool.false_eq_true, false_iff]
      rintro ⟨h1, h2, _, _⟩
      exact hlen ⟨by omega, by omega⟩
  refine ⟨hiff, ?_, ?_⟩
  · intro ht
    cases hE : efeitoTesouraCalc ncg cdg t with
    | false => rfl
    | true =>
      have := (hiff.mp hE).2.2.2
      linarith
  · intro hnan
    cases hE : efeitoTesouraCalc ncg cdg t with
    | false => rfl
    | true =>
      have hgt := (hiff.mp hE).2.2.1
      rcases hnan with h | h
      · rw [h] at hgt
        simp [pctGt] at hgt
      · rw [h] at hgt
        cases hx : pctChangeLast ncg <;> rw [hx] at hgt <;> simp [pctGt] at hgt

/-- Witness for C8: with a nonnegative latest treasury balance the flag
is false regardless of the growth rates. -/
theorem efeito_tesoura_spec_witness :
    efeitoTesouraCalc ncgSample cdgSample tSample = false := by
  apply (efeito_tesoura_spec ncgSample cdgSample tSample).2.1
  simp [lastD, tSample]

/-! ### The standard normal CDF and Black-Scholes -/

theorem integrable_stdGauss : MeasureTheory.Integrable stdGauss := by
  unfold stdGauss
  exact integrable_exp_neg_mul_sq (by norm_num)

theorem integral_stdGauss : ∫ t : ℝ, stdGauss t = Real.sqrt (2 * Real.pi) := by
  have h := integral_gaussian (1 / 2 : ℝ)
  calc ∫ t : ℝ, stdGauss t = ∫ x : ℝ, Real.exp (-(1 / 2) * x ^ 2) := rfl
    _ = Real.sqrt (Real.pi / (1 / 2)) := h
    _ = Real.sqrt (2 * Real.pi) := by
        rw [show Real.pi / (1 / 2) = 2 * Real.pi from by ring]

theorem stdGauss_even (t : ℝ) : stdGauss (-t) = stdGauss t := by
  simp [stdGauss]

theorem normCdf_reflect (x : ℝ) : normCdf x + normCdf (-x) = 1 := by
  have hrefl : (∫ t in Set.Iic (-x), stdGauss t) = ∫ t in Set.Ioi x, stdGauss t := by
    have h2 := integral_comp_neg_Iic (-x) stdGauss
    simp only [neg_neg] at h2
    calc (∫ t in Set.Iic (-x), stdGauss t)
        = ∫ t in Set.Iic (-x), stdGauss (-t) := by simp only [stdGauss_even]
      _ = ∫ t in Set.Ioi x, stdGauss t := h2
  rw [normCdf, normCdf, div_add_div_same, hrefl]
  rw [intervalIntegral.integral_Iic_add_Ioi integrable_stdGauss.integrableOn
    integrable_stdGauss.integrableOn]
  rw [integral_stdGauss]
  exact div_self (ne_of_gt (by positivity))

/-- C5.  Put-call parity: for positive spot, strike, expiry and
volatility, `Call - Put = S - K·e^{-rT}` exactly (the float code holds
it within floating tolerance). -/
theorem black_scholes_put_call_parity (S K T r sigma : ℝ)
    (_hS : 0 < S) (_hK : 0 < K) (hT : 0 < T) (hsigma : 0 < sigma) :
    black_scholes S K T r sigma "call" - black_scholes S K T r sigma "put" =
      S - K * Real.exp (-r * T) := by
  have hdeg : ¬(T ≤ 0 ∨ sigma ≤ 0) := by
    rintro (h | h) <;> linarith
  rw [black_scholes, black_scholes, if_neg hdeg, if_neg hdeg]
  have hcall : strLower "call" = "call" := by decide
  have hput : strLower "put" = "put" := by decide
  have hputcall : strLower "put" ≠ "call" := by decide
  rw [if_pos hcall, if_neg (by rw [hput]; decide), if_pos hput]
  have h1 := normCdf_reflect (d1Of S K T r sigma)
  have h2 := normCdf_reflect (d2Of S K T r sigma)
  linear_combination S * h1 - K * Real.exp (-r * T) * h2

/-- Witness for C5 at `S = K = 1`, `T = 1`, `r = 0`, `σ = 1`. -/
theorem black_scholes_put_call_parity_witness :
    black_scholes 1 1 1 0 1 "call" - black_scholes 1 1 1 0 1 "put" =
      1 - 1 * Real.exp (-0 * 1) :=
  black_scholes_put_call_parity 1 1 1 0 1 (by norm_num) (by norm_num)
    (by norm_num) (by norm_num)

/-- C6.  Degenerate pricing: when `T ≤ 0` or `σ ≤ 0` the price is 0 for
every spot, strike, rate and option type (no extrapolation to intrinsic
value), and all five Greeks are 0. -/
theorem black_scholes_degenerate (S K T r sigma : ℝ) (optionType : String)
    (h : T ≤ 0 ∨ sigma ≤ 0) :
    black_scholes S K T r sigma optionType = 0 ∧
    calcular_greeks S K T r sigma optionType = greeksZero := by
  rw [black_scholes, calcular_greeks, if_pos h, if_pos h]
  exact ⟨rfl, rfl⟩

/-- Witness for C6 at `T = 0` with positive intrinsic value
(`S = 100 > K = 90`): the price is still 0, not the intrinsic 10. -/
theorem black_scholes_degenerate_witness :
    black_scholes 100 90 0 (1 / 20) (1 / 5) "call" = 0 ∧
    calcular_greeks 100 90 0 (1 / 20) (1 / 5) "call" = greeksZero :=
  black_scholes_degenerate 100 90 0 (1 / 20) (1 / 5) "call" (Or.inl le_rfl)

/-- C2 counterexample.  At an option row whose theoretical price is 0
(the degenerate `T = 0` price), the computed percentage mispricing is
the ordinary number 0 — not a visibly-undefined value. -/
theorem diferenca_percentual_zero_counterexample :
    black_scholes 100 100 0 (1 / 20) (1 / 5) "call" = 0 ∧
    diferenca_percentual 5 (black_scholes 100 100 0 (1 / 20) (1 / 5) "call") = 0 := by
  have h0 : black_scholes 100 100 0 (1 / 20) (1 / 5) "call" = 0 := by
    rw [black_scholes, if_pos (Or.inl le_rfl)]
  refine ⟨h0, ?_⟩
  rw [h0, diferenca_percentual, if_neg (lt_irrefl 0)]

/-- C2 amended.  The percentage mispricing equals
`(market - theoretical)/theoretical · 100` when the theoretical price is
positive, and equals the number 0 (not NaN/None) when the theoretical
price is ≤ 0 — in particular when it is exactly 0. -/
theorem diferenca_percentual_spec (precoMercado precoBs : ℝ) :
    (0 < precoBs →
      diferenca_percentual precoMercado precoBs =
        (precoMercado - precoBs) / precoBs * 100) ∧
    (precoBs ≤ 0 → diferenca_percentual precoMercado precoBs = 0) := by
  constructor
  · intro h
    rw [diferenca_percentual, if_pos h]
  · intro h
    rw [diferenca_percentual, if_neg (not_lt.mpr h)]

/-- Witness for C2 (amended): both branches at concrete prices. -/
theorem diferenca_percentual_spec_witness :
    diferenca_percentual 5 2 = (5 - 2) / 2 * 100 ∧ diferenca_percentual 5 0 = 0 :=
  ⟨(diferenca_percentual_spec 5 2).1 (by norm_num),
   (diferenca_percentual_spec 5 0).2 le_rfl⟩

/-- C10.  The daily weighted score is exactly
`0.20·RSI + 0.20·MACD + 0.15·Bollinger + 0.15·EMA + 0.10·ADX +
0.08·Stochastic + 0.07·SAR` (weights not renormalized), the adjusted
score adds `0.15·weekly_bias`, and the concrete vote assignment
`(+1, +1, 0, +1, +1, 0, +1)` with weekly bias `+1` and thresholds
`strong = 0.65`, `normal = 0.25` yields the label `COMPRA FORTE`. -/
theorem analise_tecnica_score_spec :
    (∀ s : Sinais, score s =
      0.20 * (s.rsi : ℚ) + 0.20 * (s.macd : ℚ) + 0.15 * (s.bollinger : ℚ) +
        0.15 * (s.ema : ℚ) + 0.10 * (s.adx : ℚ) + 0.08 * (s.stoch : ℚ) +
        0.07 * (s.sar : ℚ)) ∧
    (∀ (s : Sinais) (weeklyBias : Int),
      score_ajustado s weeklyBias = score s + 0.15 * (weeklyBias : ℚ)) ∧
    sinal_final ⟨1, 1, 0, 1, 1, 0, 1⟩ 1 0.65 0.25 = "COMPRA FORTE" := by
  have hscore : ∀ s : Sinais, score s =
      0.20 * (s.rsi : ℚ) + 0.20 * (s.macd : ℚ) + 0.15 * (s.bollinger : ℚ) +
        0.15 * (s.ema : ℚ) + 0.10 * (s.adx : ℚ) + 0.08 * (s.stoch : ℚ) +
        0.07 * (s.sar : ℚ) := by
    intro s
    simp [score, sinaisItems, pesosGet, pesos]
  refine ⟨hscore, fun s b => rfl, ?_⟩
  have hsa : score_ajustado ⟨1, 1, 0, 1, 1, 0, 1⟩ 1 = 87 / 100 := by
    rw [score_ajustado, hscore]
    norm_num
  norm_num [sinal_final, hsa]
